import Mathlib

/-!
Verification development for the codebase-analysis ingestion pipeline.

The Lean definitions below are a shallow embedding of the Python sources:
data_validation.py, file_handling.py, analysis.py, utilities.py,
graph_management.py and main_controller.py.  Pure computations are
translated directly; effectful steps (file reads, subprocess calls, the
NLP entity extractor, hashing) are passed in as explicit values or
function parameters, and exceptions are modelled with Option / explicit
early returns exactly where the source catches them.
-/

namespace CodebaseAnalysis

/-! ### JSON values

Model of the Python JSON-like dictionaries the pipeline passes around.
Numbers are split into integers and exact rationals; the only
non-integer number the pipeline ever produces is the comment-density
ratio, which is never fed to the schema validator, so representing
Python floats by exact rationals is observationally faithful here. -/

inductive JVal where
  | null
  | bool (b : Bool)
  | num (n : Int)
  | rat (q : Rat)
  | str (s : String)
  | arr (items : List JVal)
  | obj (fields : List (String × JVal))

/-- Dictionary field lookup, as Python d.get(k) on the dicts the
pipeline builds (keys are unique in every record the code constructs). -/
def getField (fields : List (String × JVal)) (k : String) : Option JVal :=
  match fields.find? (fun p => p.1 == k) with
  | some p => some p.2
  | none => none

/-! ### data_validation.py -/

/-- Embedding of the jsonschema type keyword for the type names used in
the schema of data_validation.py.  An integer matches both "integer"
and "number"; a non-integral number matches only "number". -/
def isType (v : JVal) (t : String) : Bool :=
  match v with
  | .null => t == "null"
  | .bool _ => t == "boolean"
  | .num _ => t == "integer" || t == "number"
  | .rat _ => t == "number"
  | .str _ => t == "string"
  | .arr _ => t == "array"
  | .obj _ => t == "object"

/-- Jsonschema properties keyword: a declared property constrains the
value only when the key is present. -/
def propOk (fields : List (String × JVal)) (k : String) (chk : JVal → Bool) : Bool :=
  match getField fields k with
  | none => true
  | some v => chk v

/-- The analysis sub-schema of data_validation.py lines 10-29:
type object, fourteen declared properties, additionalProperties true. -/
def checkAnalysisVal : JVal → Bool
  | .obj fs =>
      propOk fs "classes" (isType · "array") &&
      propOk fs "functions" (isType · "array") &&
      propOk fs "imports" (isType · "array") &&
      propOk fs "lint_results" (isType · "object") &&
      propOk fs "docstrings" (isType · "object") &&
      propOk fs "comments" (isType · "array") &&
      propOk fs "html" (isType · "string") &&
      propOk fs "tags" (isType · "array") &&
      propOk fs "attributes" (isType · "object") &&
      propOk fs "entities" (isType · "array") &&
      propOk fs "complexity" (isType · "number") &&
      propOk fs "data" (isType · "object") &&
      propOk fs "jsx_analysis" (isType · "object") &&
      propOk fs "vue_analysis" (isType · "object")
  | _ => false

/-- The metadata sub-schema of data_validation.py lines 30-39:
type object, required size, loc and size integers, md5_hash string.
There is no minimum keyword, so the sign of size is not constrained. -/
def checkMetadataVal : JVal → Bool
  | .obj fs =>
      (getField fs "size").isSome &&
      propOk fs "loc" (isType · "integer") &&
      propOk fs "size" (isType · "integer") &&
      propOk fs "md5_hash" (isType · "string")
  | _ => false

/-- validate_json of data_validation.py lines 44-54: jsonschema.validate
against the module-level schema, True on success and False on any
ValidationError.  Top level: type object, required file_path, language,
content, analysis, metadata; content may be string or null. -/
def validate_json : JVal → Bool
  | .obj fs =>
      (getField fs "file_path").isSome &&
      (getField fs "language").isSome &&
      (getField fs "content").isSome &&
      (getField fs "analysis").isSome &&
      (getField fs "metadata").isSome &&
      propOk fs "file_path" (isType · "string") &&
      propOk fs "language" (isType · "string") &&
      propOk fs "content" (fun v => isType v "string" || isType v "null") &&
      propOk fs "analysis" checkAnalysisVal &&
      propOk fs "metadata" checkMetadataVal
  | _ => false

/-! ### file_handling.py -/

/-- The six MIME types accepted by is_text_file, file_handling.py line 55. -/
def text_types : List String :=
  ["text/plain", "text/html", "text/css", "text/javascript",
   "application/json", "application/xml"]

/-- is_text_file, file_handling.py lines 52-61.  The detected file type
is the result of guess_file_type: some mime string, or none when
detection failed (the source returns None there).  A Python None is not
a member of text_types, and any detection exception yields False. -/
def is_text_file (file_type : Option String) : Bool :=
  match file_type with
  | some t => text_types.contains t
  | none => false

/-- is_binary_file, file_handling.py lines 64-69: the negation of
is_text_file; an error while determining the type counts as binary,
which the none case of the detected type already covers. -/
def is_binary_file (file_type : Option String) : Bool :=
  !(is_text_file file_type)

/-- async_read, file_handling.py lines 82-86: none for binary files,
otherwise the result of read_text_file (itself none on decode errors,
passed in here as the raw read result). -/
def async_read (file_type : Option String) (raw : Option String) : Option String :=
  if is_binary_file file_type then none else raw

/-! ### main_controller.py: the dispatch registry -/

/-- The analyzer capabilities registered in main_controller.py. -/
inductive Handler where
  | python
  | javascript
  | html
  | css
  | jsonH
  | markdown
  | text
  | typescript
  | jsx
  | vue
  | yaml
  | xml
  | image
  | document
  | defaultHandler
deriving DecidableEq

/-- FILE_TYPE_HANDLERS, main_controller.py lines 47-109, key for key.
The source dict literal lists the key ".vue" twice with the same
handler; the duplicate is kept here and is harmless under first-match
lookup because both entries agree. -/
def FILE_TYPE_HANDLERS : List (String × Handler) :=
  [(".py", .python),
   (".js", .javascript),
   (".html", .html),
   (".css", .css),
   (".json", .jsonH),
   (".md", .markdown),
   (".txt", .text),
   (".pyi", .python),
   (".ts", .typescript),
   (".tsx", .typescript),
   (".jsx", .jsx),
   (".mjs", .javascript),
   (".cjs", .javascript),
   (".vue", .vue),
   (".yaml", .yaml),
   (".yml", .yaml),
   (".xml", .xml),
   (".png", .image),
   (".jpg", .image),
   (".jpeg", .image),
   (".gif", .image),
   (".bmp", .image),
   (".ico", .image),
   (".svg", .image),
   (".doc", .document),
   (".pdf", .document),
   (".odt", .document),
   (".docx", .document),
   (".xlsx", .document),
   (".ppt", .document),
   (".pptx", .document),
   (".vue", .vue),
   (".scss", .css),
   (".sass", .css),
   (".node", .javascript),
   (".mts", .typescript),
   (".coffee", .javascript),
   (".applescript", .text),
   (".c", .text),
   (".jinja2", .text),
   (".h", .text),
   (".py-tpl", .python),
   (".cpp", .text),
   (".hpp", .text),
   (".asm", .text),
   (".pyx", .python),
   (".f", .text),
   (".template", .text),
   (".keep", .text),
   (".R", .text),
   (".go", .text),
   (".rs", .text),
   (".pyw", .python),
   (".misc", .text),
   (".message", .text),
   (".no_trailing_newline", .text),
   (".g", .text),
   (".csh", .text),
   (".asp", .text),
   (".htm", .html),
   (".in", .text)]

/-- The handler selection of process_file, main_controller.py line 219:
FILE_TYPE_HANDLERS.get(file_type, default_handler), where file_type is
the value returned by guess_file_type (a MIME string or None).  A None
key is absent from the dict, so it falls to the default handler. -/
def getHandler (file_type : Option String) : Handler :=
  match file_type with
  | some t =>
      match FILE_TYPE_HANDLERS.find? (fun p => p.1 == t) with
      | some p => p.2
      | none => .defaultHandler
  | none => .defaultHandler

/-! ### The per-file record, as the controller and utilities see it

Handlers in analysis.py build dicts with keys file_path, language,
content, analysis, metadata (loc and size; the image and document
handlers omit loc) and module_path.  The main loop may later add a
documentation key. -/

structure FileData where
  file_path : String
  language : Option String
  content : Option String
  analysis : List (String × JVal)
  loc : Option Nat
  size : Nat
  module_path : String
  documentation : Option String

/-- Generic ordered-dict lookup (first match; the dicts built by the
pipeline have unique keys). -/
def lookupAssoc {α : Type} (m : List (String × α)) (k : String) : Option α :=
  match m.find? (fun p => p.1 == k) with
  | some p => some p.2
  | none => none

/-- Python dict assignment d[k] = v: replace the value at an existing
key in place, else append (insertion order preserved).  The pipeline's
dicts have unique keys, for which this recursion is the assignment
semantics. -/
def upsert {α : Type} (m : List (String × α)) (k : String) (v : α) : List (String × α) :=
  match m with
  | [] => [(k, v)]
  | q :: rest => if q.1 == k then (k, v) :: rest else q :: upsert rest k v

/-- Python len() for the JSON values that can appear under a facts key:
lists, dicts and strings have a length, anything else raises (the
caller catches and yields 0). -/
def jLen : JVal → Nat
  | .arr l => l.length
  | .obj fs => fs.length
  | .str s => s.length
  | _ => 0

/-! ### utilities.py -/

/-- calculate_function_count, utilities.py lines 97-109.  The source
compares against the capitalised names Python and JavaScript even
though guess_language stores lowercased names; the comparison is kept
verbatim.  A missing functions key raises KeyError, caught to 0. -/
def calculate_function_count (fd : FileData) : Nat :=
  if fd.language == some "Python" || fd.language == some "JavaScript" then
    match getField fd.analysis "functions" with
    | some v => jLen v
    | none => 0
  else 0

/-- calculate_comment_density, utilities.py lines 111-123.  A missing
loc key raises KeyError, caught to 0; analysis.get supplies an empty
default for comments.  The Python float ratio is modelled exactly. -/
def calculate_comment_density (fd : FileData) : Rat :=
  match fd.loc with
  | none => 0
  | some loc =>
      let comment_count : Nat :=
        match getField fd.analysis "comments" with
        | some v => jLen v
        | none => 0
      if loc > 0 then (comment_count : Rat) / (loc : Rat) else 0

/-- The codebase_data map of main_controller.py: module path to the
list of per-file results of that module.  count_skipped_files treats
None entries specially, so entries are optional records. -/
abbrev CodebaseData := List (String × List (Option FileData))

/-- count_skipped_files, analysis.py lines 591-597. -/
def count_skipped_files (cdb : CodebaseData) : Nat :=
  cdb.foldl (fun acc m =>
    m.2.foldl (fun a e =>
      match e with
      | none => a + 1
      | some _ => a) acc) 0

/-- One value of the cache dict built by cache_analysis_results. -/
structure CacheEntry where
  hash : Option String
  analysis : List (String × JVal)
  function_count : Nat
  comment_density : Rat

/-- The value stored for one record by cache_analysis_results,
utilities.py lines 40-49: md5 of the content (None content hashes to
None), the analysis map, and the two derived measures. -/
def cacheEntryOf (md5 : String → String) (fd : FileData) : CacheEntry :=
  ⟨match fd.content with
    | some c => some (md5 c)
    | none => none,
   fd.analysis, calculate_function_count fd, calculate_comment_density fd⟩

/-- The per-record body of the cache loop: a None entry raises at the
content subscript and is skipped by the except clause. -/
def cacheStep (md5 : String → String) (cache : List (String × CacheEntry))
    (e : Option FileData) : List (String × CacheEntry) :=
  match e with
  | none => cache
  | some fd => upsert cache fd.file_path (cacheEntryOf md5 fd)

/-- cache_analysis_results, utilities.py lines 35-59.  The cache dict
starts empty and is filled only from this run's codebase_data; the
md5 digest of the content string is passed in as a function.  The
resulting dict is then written to analysis_cache.json opened in mode
w, so the returned map is the entire content of the cache file after
the run. -/
def cache_analysis_results (md5 : String → String) (cdb : CodebaseData) :
    List (String × CacheEntry) :=
  cdb.foldl (fun cache m => m.2.foldl (cacheStep md5) cache) []

/-- The file_path keys this run's records contribute to the cache (in
traversal order, possibly with repeats). -/
def runPaths (cdb : CodebaseData) : List String :=
  cdb.flatMap (fun m => m.2.filterMap (fun e => e.map FileData.file_path))

/-! ### main_controller.py: aggregate statistics -/

structure CodebaseStats where
  total_files : Nat
  total_loc : Nat
  total_size : Nat
  files_by_language : List (Option String × Nat)
  loc_by_language : List (Option String × Nat)
  size_by_language : List (Option String × Nat)
  files_by_module : List (String × Nat)
deriving DecidableEq

def emptyStats : CodebaseStats := ⟨0, 0, 0, [], [], [], []⟩

/-- In-place increment of a per-language tally whose key is already
present. -/
def bumpBy (m : List (Option String × Nat)) (k : Option String) (d : Nat) :
    List (Option String × Nat) :=
  m.map (fun p => if p.1 == k then (p.1, p.2 + d) else p)

/-- The per-file body of calculate_codebase_stats, main_controller.py
lines 297-313.  total_files is incremented before the metadata
accesses, so an entry that raises there (a None entry, or a record
without a loc key) still counts one file; the except clause then skips
the rest of the body for that entry. -/
def statsFileStep (s : CodebaseStats) (e : Option FileData) : CodebaseStats :=
  let s := { s with total_files := s.total_files + 1 }
  match e with
  | none => s
  | some fd =>
      match fd.loc with
      | none => s
      | some loc =>
          let s := { s with total_loc := s.total_loc + loc }
          let s := { s with total_size := s.total_size + fd.size }
          let lang := fd.language
          let s :=
            if s.files_by_language.any (fun p => p.1 == lang) then s
            else { s with
              files_by_language := s.files_by_language ++ [(lang, 0)],
              loc_by_language := s.loc_by_language ++ [(lang, 0)],
              size_by_language := s.size_by_language ++ [(lang, 0)] }
          { s with
            files_by_language := bumpBy s.files_by_language lang 1,
            loc_by_language := bumpBy s.loc_by_language lang loc,
            size_by_language := bumpBy s.size_by_language lang fd.size }

/-- calculate_codebase_stats, main_controller.py lines 285-314.
files_by_module is set from the module list length before the inner
loop runs. -/
def calculate_codebase_stats (cdb : CodebaseData) : CodebaseStats :=
  cdb.foldl (fun s m =>
    let s := { s with files_by_module := upsert s.files_by_module m.1 m.2.length }
    m.2.foldl statsFileStep s) emptyStats

/-! ### analysis.py: lint statistics -/

/-- Python truthiness for the JSON values a lint_results key can hold. -/
def jTruthy : JVal → Bool
  | .null => false
  | .bool b => b
  | .num n => n != 0
  | .rat q => q != 0
  | .str s => s != ""
  | .arr l => !l.isEmpty
  | .obj l => !l.isEmpty

/-- lint_stats[k] = lint_stats.get(k, 0) + d. -/
def tallyAdd (m : List (String × Int)) (k : String) (d : Int) : List (String × Int) :=
  match lookupAssoc m k with
  | some n => upsert m k (n + d)
  | none => m ++ [(k, d)]

/-- Iterating a truthy lint_results value: linter output is a JSON
array; a truthy non-array value raises during iteration or at the item
subscript, modelled as none (analyze_lint_results has no try of its
own, so the exception escapes to the caller). -/
def asItems : JVal → Option (List JVal)
  | .arr l => some l
  | _ => none

/-- item[k] for a lint item, yielding the violation name; a missing key
or non-dict item raises (none). -/
def lintField (item : JVal) (k : String) : Option String :=
  match item with
  | .obj fs =>
      match getField fs k with
      | some (.str s) => some s
      | _ => none
  | _ => none

/-- The python, css and typescript branches each count one violation
per item under the item's name field. -/
def tallyItems (key : String) (st : List (String × Int)) (items : List JVal) :
    Option (List (String × Int)) :=
  items.foldlM (fun st item => (lintField item key).map (fun s => tallyAdd st s 1)) st

/-- The javascript branch adds errorCount and warningCount per item
when present, analysis.py lines 567-576. -/
def tallyJsItem (st : List (String × Int)) (item : JVal) : Option (List (String × Int)) :=
  match item with
  | .obj fs =>
      let st1 : Option (List (String × Int)) :=
        match getField fs "errorCount" with
        | none => some st
        | some (.num n) => some (tallyAdd st "error" n)
        | some _ => none
      match st1 with
      | none => none
      | some st =>
          match getField fs "warningCount" with
          | none => some st
          | some (.num n) => some (tallyAdd st "warning" n)
          | some _ => none
  | _ => none

/-- The body of analyze_lint_results for one codebase entry,
analysis.py lines 559-588.  Falsy entries (None) are skipped by the
truthiness guard, as is a falsy lint_results value. -/
def lintStep (st : List (String × Int)) (e : Option FileData) :
    Option (List (String × Int)) :=
  match e with
  | none => some st
  | some fd =>
      let branch (key : String) : Option (List (String × Int)) :=
        match getField fd.analysis "lint_results" with
        | none => some st
        | some v =>
            if jTruthy v then (asItems v).bind (tallyItems key st) else some st
      if fd.language == some "python" then branch "symbol"
      else if fd.language == some "javascript" then
        match getField fd.analysis "lint_results" with
        | none => some st
        | some v =>
            if jTruthy v then (asItems v).bind (fun items => items.foldlM tallyJsItem st)
            else some st
      else if fd.language == some "css" then branch "rule"
      else if fd.language == some "typescript" then branch "ruleName"
      else some st

/-- analyze_lint_results, analysis.py lines 556-589; none models an
exception escaping the (try-less) function. -/
def analyze_lint_results (cdb : CodebaseData) : Option (List (String × Int)) :=
  cdb.foldlM (fun st m => m.2.foldlM lintStep st) []

/-! ### graph_management.py -/

/-- Split a character list at every slash (the components of a
slash-separated path, empty components included). -/
def splitOnSlash (cs : List Char) : List (List Char) :=
  match cs with
  | [] => [[]]
  | c :: rest =>
      let r := splitOnSlash rest
      if c == '/' then [] :: r
      else
        match r with
        | [] => [[c]]
        | h :: t => (c :: h) :: t

/-- str(Path(p).parent) for the slash-separated paths the pipeline
produces: everything before the last slash, or a dot when the path has
no directory part. -/
def parentDir (p : String) : String :=
  let parts := (splitOnSlash p.toList).map String.mk
  if parts.length ≤ 1 then "." else String.intercalate "/" parts.dropLast

/-- Index of the last dot in a character list. -/
def lastDotIdx (cs : List Char) : Option Nat :=
  cs.enum.foldl (fun acc q => if q.2 == '.' then some q.1 else acc) none

/-- Path(p).suffix: the dot-led extension of the final path component;
empty when the last dot is leading, trailing or absent, mirroring
pathlib's rfind-based rule. -/
def suffixOf (p : String) : String :=
  let cs := ((splitOnSlash p.toList).getLast?).getD []
  match lastDotIdx cs with
  | some i => if 0 < i && i < cs.length - 1 then String.mk (cs.drop i) else ""
  | none => ""

/-- Python str.endswith, over the character lists of the strings. -/
def strEndsWith (s q : String) : Bool :=
  q.toList.isSuffixOf s.toList

/-- The extension list hard-coded in resolve_import,
graph_management.py line 13, before the importer's own extension is
appended. -/
def base_extensions : List String :=
  [".py", ".js", ".ts", ".jsx", ".vue", ".scss", ".css", ".sass", ".html",
   ".tsx", ".xml", ".php", ".c", ".cpp", ".hpp", ".go", ".rs"]

/-- The candidate relative paths of resolve_import, graph_management.py
line 14: dots of the specifier become slashes, then each known
extension plus the importer's extension is appended. -/
def possible_paths (import_statement : String) (file_ext : String) : List String :=
  let stem := String.mk (import_statement.toList.map (fun c => if c == '.' then '/' else c))
  (base_extensions ++ [file_ext]).map (fun ext => stem ++ ext)

/-- Scan one module's record list for the first file whose path ends
with one of the candidate paths, graph_management.py lines 17-19 and
22-25.  A None entry raises a TypeError at the subscript, modelled as
the error result. -/
def findMatchIn (entries : List (Option FileData)) (paths : List String) :
    Except Unit (Option String) :=
  match entries with
  | [] => .ok none
  | none :: _ => .error ()
  | some fd :: rest =>
      if paths.any (fun q => strEndsWith fd.file_path q) then .ok (some fd.file_path)
      else findMatchIn rest paths

/-- codebase_data.get(module_path, []). -/
def lookupModule (cdb : CodebaseData) (k : String) : List (Option FileData) :=
  match lookupAssoc cdb k with
  | some entries => entries
  | none => []

/-- The cross-module fallback loop of resolve_import, iterating all
module lists in map order. -/
def searchAllModules (cdb : CodebaseData) (paths : List String) :
    Except Unit (Option String) :=
  match cdb with
  | [] => .ok none
  | m :: rest =>
      match findMatchIn m.2 paths with
      | .error e => .error e
      | .ok (some r) => .ok (some r)
      | .ok none => searchAllModules rest paths

/-- resolve_import, graph_management.py lines 8-29: same-module records
are searched first, then all modules; an unresolved specifier is
logged and yields None (ok none here); error models an exception
escaping to the caller. -/
def resolve_import (import_statement file_path : String) (cdb : CodebaseData) :
    Except Unit (Option String) :=
  let module_path := parentDir file_path
  let paths := possible_paths import_statement (suffixOf file_path)
  match findMatchIn (lookupModule cdb module_path) paths with
  | .error e => .error e
  | .ok (some r) => .ok (some r)
  | .ok none => searchAllModules cdb paths

/-- A networkx DiGraph as build_dependency_graph uses it.  A node's
attribute slot is none when the node was created by add_edge without a
language attribute, and some l when add_node set the attribute to l
(itself optional, since a record's language may be None). -/
structure DepGraph where
  nodes : List (String × Option (Option String))
  edges : List (String × String)

/-- graph.add_node(p, language=lang): inserts the node or updates the
attribute of an existing one. -/
def add_node (g : DepGraph) (p : String) (lang : Option String) : DepGraph :=
  if g.nodes.any (fun q => q.1 == p) then
    { g with nodes := g.nodes.map (fun q => if q.1 == p then (p, some lang) else q) }
  else { g with nodes := g.nodes ++ [(p, some lang)] }

/-- Node creation performed implicitly by add_edge: existing nodes keep
their attributes, new ones carry none. -/
def ensureNode (g : DepGraph) (p : String) : DepGraph :=
  if g.nodes.any (fun q => q.1 == p) then g
  else { g with nodes := g.nodes ++ [(p, none)] }

/-- graph.add_edge(a, b): idempotent on edges, creates missing nodes. -/
def add_edge (g : DepGraph) (a b : String) : DepGraph :=
  let g := ensureNode g a
  let g := ensureNode g b
  if g.edges.contains (a, b) then g else { g with edges := g.edges ++ [(a, b)] }

/-- The import loop of build_dependency_graph for one record,
graph_management.py lines 38-41.  An exception inside resolve_import
(including a non-string specifier) aborts this record's loop, keeping
edges added so far; the surrounding except then moves on. -/
def importEdges (cdb : CodebaseData) (src : String) (stmts : List JVal)
    (g : DepGraph) : DepGraph :=
  match stmts with
  | [] => g
  | .str s :: rest =>
      match resolve_import s src cdb with
      | .error _ => g
      | .ok none => importEdges cdb src rest g
      | .ok (some tgt) => importEdges cdb src rest (add_edge g src tgt)
  | _ :: _ => g

/-- The per-record body of build_dependency_graph, graph_management.py
lines 34-45.  A None entry raises at the first subscript and is
skipped; a record whose analysis has no imports key raises KeyError
after its node was added. -/
def bdgStep (cdb : CodebaseData) (g : DepGraph) (e : Option FileData) : DepGraph :=
  match e with
  | none => g
  | some fd =>
      let g := add_node g fd.file_path fd.language
      if fd.language == some "python" || fd.language == some "javascript"
          || fd.language == some "typescript" then
        match getField fd.analysis "imports" with
        | some (.arr stmts) => importEdges cdb fd.file_path stmts g
        | some _ => g
        | none => g
      else g

/-- build_dependency_graph, graph_management.py lines 31-46. -/
def build_dependency_graph (cdb : CodebaseData) : DepGraph :=
  cdb.foldl (fun g m => m.2.foldl (bdgStep cdb) g) ⟨[], []⟩

/-! ### main_controller.py: per-file processing and scheduling -/

/-- The effectful inputs of one process_file call: whether the path
exists, the guess_file_type result, the guess_language result, the
entity list the NLP model yields on the record's content, and the
record the dispatched handler returns (none when the handler failed or
its own validation rejected the record). -/
structure FileCtx where
  pathExists : Bool
  mime : Option String
  language : Option String
  entities : List JVal
  handlerResult : Handler → Option FileData

/-- One line appended to a module's jsonl output log. -/
structure SavedLine where
  out_file : String
  record : FileData

/-- The observable outcome of process_file: which handler was invoked,
if any, and the line persisted, if any. -/
structure ProcResult where
  dispatched : Option Handler
  saved : Option SavedLine

/-- process_file, main_controller.py lines 202-253.  The cache is not
among its inputs; no step of it consults a cache.  Steps in source
order: missing path returns; binary file returns; the handler looked
up from the detected MIME type is invoked; on a record, language is
overwritten, entities, function_count and comment_density are written
into the analysis map (nlp on a None content raises, caught by the
outer except, and nothing is saved); an empty module path returns
without saving; otherwise one line is appended to
output_dir/module_path.jsonl. -/
def process_file (ctx : FileCtx) (_file_path module_path output_dir : String) :
    ProcResult :=
  if !ctx.pathExists then ⟨none, none⟩
  else if is_binary_file ctx.mime then ⟨none, none⟩
  else
    let handler := getHandler ctx.mime
    match ctx.handlerResult handler with
    | none => ⟨some handler, none⟩
    | some fd =>
        match fd.content with
        | none => ⟨some handler, none⟩
        | some _ =>
            let fd := { fd with language := ctx.language }
            let fd := { fd with analysis := upsert fd.analysis "entities" (.arr ctx.entities) }
            let fc : Int := (calculate_function_count fd : Int)
            let fd := { fd with analysis := upsert fd.analysis "function_count" (.num fc) }
            let cd := calculate_comment_density fd
            let fd := { fd with analysis := upsert fd.analysis "comment_density" (.rat cd) }
            if module_path == "" then ⟨some handler, none⟩
            else ⟨some handler, some ⟨output_dir ++ "/" ++ module_path ++ ".jsonl", fd⟩⟩

/-- A directory subtree: its path, the files directly in it, and its
subdirectories. -/
inductive DirTree where
  | node (path : String) (files : List String) (subdirs : List DirTree)

mutual
/-- Path(d).rglob of all files at or below a directory (files of the
directory itself first, then the subtrees in order). -/
def rglobFiles : DirTree → List String
  | .node _ fs ds => fs ++ rglobFilesList ds
/-- Helper of rglobFiles over a list of subtrees. -/
def rglobFilesList : List DirTree → List String
  | [] => []
  | d :: ds => rglobFiles d ++ rglobFilesList ds
end

mutual
/-- os.walk in top-down order: the directory itself, then the walks of
its subdirectories. -/
def walkDirs : DirTree → List DirTree
  | .node p fs ds => .node p fs ds :: walkDirsList ds
/-- Helper of walkDirs over a list of subtrees. -/
def walkDirsList : List DirTree → List DirTree
  | [] => []
  | d :: ds => walkDirs d ++ walkDirsList ds
end

/-- The full multiset of per-file tasks one run schedules:
process_all_directories walks every directory and
process_directory_concurrently submits every file found by rglob from
that directory, main_controller.py lines 265 and 277-279.  Worker
completion order is arbitrary; this list fixes one order, which is
enough for counting and multiset properties. -/
def scheduled (t : DirTree) : List String :=
  (walkDirs t).flatMap rglobFiles

/-- process_directory_concurrently, main_controller.py lines 262-272:
codebase_data is created empty, executor.map is run only for its side
effects and its result is never stored, and the empty dict is
returned. -/
def process_directory_concurrently (_dir : DirTree) : CodebaseData :=
  []

/-- dict.update. -/
def dictUpdate (m new : CodebaseData) : CodebaseData :=
  new.foldl (fun acc p => upsert acc p.1 p.2) m

/-- process_all_directories, main_controller.py lines 274-283: starts
from an empty map and merges the per-directory results in walk
order. -/
def process_all_directories (t : DirTree) : CodebaseData :=
  (walkDirs t).foldl (fun acc d => dictUpdate acc (process_directory_concurrently d)) []

/-- The per-run task context: the effectful inputs of each file's task
and the module path computed by os.path.relpath of its parent. -/
structure TaskEnv where
  fileEnv : String → FileCtx
  modulePathOf : String → String
  output_dir : String

/-- One pool task, main_controller.py lines 255-260 and 268. -/
def runTask (env : TaskEnv) (f : String) : ProcResult :=
  process_file (env.fileEnv f) f (env.modulePathOf f) env.output_dir

/-- All lines persisted by one run, in task order. -/
def persistedLines (env : TaskEnv) (t : DirTree) : List SavedLine :=
  (scheduled t).filterMap (fun f => (runTask env f).saved)

/-- The file_path fields of the persisted lines. -/
def persistedPaths (env : TaskEnv) (t : DirTree) : List String :=
  (persistedLines env t).map (fun l => l.record.file_path)

/-! ### main_controller.py: the main run -/

/-- The post-traversal per-record update of main, main_controller.py
lines 150-162: hash the content (encoding a None content raises,
caught, leaving the record unchanged), replace the analysis from the
cache on a hash match, then attach a documentation link and the module
path when a link exists. -/
def update_file_data (md5 : String → String) (cache : List (String × CacheEntry))
    (doc_links : List (String × String)) (module_path : String) (fd : FileData) :
    FileData :=
  match fd.content with
  | none => fd
  | some c =>
      let file_hash := md5 c
      let fd :=
        match lookupAssoc cache fd.file_path with
        | some entry =>
            if entry.hash == some file_hash then { fd with analysis := entry.analysis }
            else fd
        | none => fd
      match lookupAssoc doc_links fd.file_path with
      | some link => { fd with documentation := some link, module_path := module_path }
      | none => fd

/-- The effectful inputs of one main run: whether os.makedirs on the
output directory succeeds, the directory tree of the root (none when
the root path is missing, in which case os.walk silently yields
nothing), and the per-task context. -/
structure MainEnv where
  makedirsOk : Bool
  tree : Option DirTree
  taskEnv : TaskEnv
  md5 : String → String
  prior_cache : List (String × CacheEntry)
  doc_links : List (String × String)

/-- The observable outcome of main: the process exit status, the tasks
started, the lines persisted by them, the codebase_data map, and the
cache file content written at the end (none when the run aborted
before reaching it). -/
structure MainOutcome where
  exitCode : Nat
  tasksRun : List String
  persisted : List SavedLine
  codebase : CodebaseData
  writtenCache : Option (List (String × CacheEntry))

/-- main, main_controller.py lines 113-199.  os.makedirs at line 116 is
outside every try block: its failure aborts the run with a non-zero
exit before any task starts.  Every later phase is wrapped in its own
try/except (and the first except returns from main normally), so the
interpreter always exits with status zero once makedirs succeeded; a
missing root yields no walk entries and no tasks, without any error. -/
def mainRun (env : MainEnv) : MainOutcome :=
  if !env.makedirsOk then ⟨1, [], [], [], none⟩
  else
    let sched := match env.tree with
      | none => []
      | some t => scheduled t
    let cdb : CodebaseData := match env.tree with
      | none => []
      | some t => process_all_directories t
    let persisted := sched.filterMap (fun f => (runTask env.taskEnv f).saved)
    ⟨0, sched, persisted, cdb, some (cache_analysis_results env.md5 cdb)⟩

/-! ### analysis.py: the records built by the linted handlers

The four handlers that run an external linter (python, css,
javascript, typescript) build their record dict and pass it to
validate_json before saving and returning it.  The ingredients
computed from the file (parse results, entities, the parsed linter
output, sizes) are parameters here; each record below is the dict
literal of the source, key for key and in source order. -/

/-- The record dict of process_python_file, analysis.py lines 66-85. -/
def pythonRecord (file_path language content : String)
    (classes functions imports comments entities : List JVal)
    (docstrings : List (String × JVal)) (complexity : Int)
    (lint_results : JVal) (loc size : Int) (module_path : String) : JVal :=
  .obj [("file_path", .str file_path),
        ("language", .str language),
        ("content", .str content),
        ("analysis", .obj
          [("classes", .arr classes),
           ("functions", .arr functions),
           ("imports", .arr imports),
           ("docstrings", .obj docstrings),
           ("comments", .arr comments),
           ("entities", .arr entities),
           ("complexity", .num complexity),
           ("lint_results", lint_results)]),
        ("metadata", .obj [("loc", .num loc), ("size", .num size)]),
        ("module_path", .str module_path)]

/-- The record dict of process_css_file, analysis.py lines 151-166. -/
def cssRecord (file_path language content : String)
    (rules entities : List JVal) (properties : List (String × JVal))
    (lint_results : JVal) (loc size : Int) (module_path : String) : JVal :=
  .obj [("file_path", .str file_path),
        ("language", .str language),
        ("content", .str content),
        ("analysis", .obj
          [("rules", .arr rules),
           ("properties", .obj properties),
           ("entities", .arr entities),
           ("lint_results", lint_results)]),
        ("metadata", .obj [("loc", .num loc), ("size", .num size)]),
        ("module_path", .str module_path)]

/-- The record dict of process_javascript_file, analysis.py lines
195-211. -/
def javascriptRecord (file_path language content : String)
    (functions imports comments entities : List JVal)
    (lint_results : JVal) (loc size : Int) (module_path : String) : JVal :=
  .obj [("file_path", .str file_path),
        ("language", .str language),
        ("content", .str content),
        ("analysis", .obj
          [("functions", .arr functions),
           ("imports", .arr imports),
           ("comments", .arr comments),
           ("entities", .arr entities),
           ("lint_results", lint_results)]),
        ("metadata", .obj [("loc", .num loc), ("size", .num size)]),
        ("module_path", .str module_path)]

/-- The record dict of process_typescript_file, analysis.py lines
408-426. -/
def typescriptRecord (file_path language content : String)
    (functions imports comments entities : List JVal)
    (complexity : Int) (docstrings : List (String × JVal))
    (lint_results : JVal) (loc size : Int) (module_path : String) : JVal :=
  .obj [("file_path", .str file_path),
        ("language", .str language),
        ("content", .str content),
        ("analysis", .obj
          [("functions", .arr functions),
           ("imports", .arr imports),
           ("comments", .arr comments),
           ("complexity", .num complexity),
           ("docstrings", .obj docstrings),
           ("entities", .arr entities),
           ("lint_results", lint_results)]),
        ("metadata", .obj [("loc", .num loc), ("size", .num size)]),
        ("module_path", .str module_path)]

/-- The validate-then-return tail of process_python_file, analysis.py
lines 87-94: on validation success the record is saved and returned,
on failure the handler logs and returns None. -/
def process_python_file (file_path language content : String)
    (classes functions imports comments entities : List JVal)
    (docstrings : List (String × JVal)) (complexity : Int)
    (lint_results : JVal) (loc size : Int) (module_path : String) : Option JVal :=
  let data := pythonRecord file_path language content classes functions imports
    comments entities docstrings complexity lint_results loc size module_path
  if validate_json data then some data else none

/-- The validate-then-return tail of process_css_file, analysis.py
lines 167-175. -/
def process_css_file (file_path language content : String)
    (rules entities : List JVal) (properties : List (String × JVal))
    (lint_results : JVal) (loc size : Int) (module_path : String) : Option JVal :=
  let data := cssRecord file_path language content rules entities properties
    lint_results loc size module_path
  if validate_json data then some data else none

/-- The validate-then-return tail of process_javascript_file,
analysis.py lines 212-220. -/
def process_javascript_file (file_path language content : String)
    (functions imports comments entities : List JVal)
    (lint_results : JVal) (loc size : Int) (module_path : String) : Option JVal :=
  let data := javascriptRecord file_path language content functions imports
    comments entities lint_results loc size module_path
  if validate_json data then some data else none

/-- The validate-then-return tail of process_typescript_file,
analysis.py lines 427-435. -/
def process_typescript_file (file_path language content : String)
    (functions imports comments entities : List JVal)
    (complexity : Int) (docstrings : List (String × JVal))
    (lint_results : JVal) (loc size : Int) (module_path : String) : Option JVal :=
  let data := typescriptRecord file_path language content functions imports
    comments entities complexity docstrings lint_results loc size module_path
  if validate_json data then some data else none

/-! ## Shared lemmas -/

/-- Unfolding lemma for dict lookup on a nonempty dict. -/
theorem lookupAssoc_cons {α : Type} (q : String × α) (rest : List (String × α))
    (p : String) :
    lookupAssoc (q :: rest) p = if q.1 == p then some q.2 else lookupAssoc rest p := by
  by_cases h : (q.1 == p) <;> simp [lookupAssoc, List.find?, h]

/-- Key membership characterises a successful dict lookup. -/
theorem lookupAssoc_isSome_iff {α : Type} (m : List (String × α)) (p : String) :
    (lookupAssoc m p).isSome ↔ p ∈ m.map Prod.fst := by
  induction m with
  | nil => simp [lookupAssoc]
  | cons q rest ih =>
      rw [lookupAssoc_cons]
      by_cases h : q.1 = p
      · simp [h]
      · have hb : (q.1 == p) = false := by simp [h]
        simp [hb, ih]
        tauto

/-- Dict assignment adds exactly the assigned key to the key set. -/
theorem mem_keys_upsert {α : Type} (m : List (String × α)) (k p : String) (v : α) :
    p ∈ (upsert m k v).map Prod.fst ↔ p = k ∨ p ∈ m.map Prod.fst := by
  induction m with
  | nil => simp [upsert]
  | cons q rest ih =>
      by_cases h : q.1 = k
      · have hb : (q.1 == k) = true := by simp [h]
        simp [upsert, hb, h]
        try tauto
      · have hb : (q.1 == k) = false := by simp [h]
        simp [upsert, hb, ih]
        try tauto

/-- One cache-loop step on a record adds exactly that record's path to
the cache keys. -/
theorem cacheStep_keys_some (md5 : String → String) (cache : List (String × CacheEntry))
    (fd : FileData) (p : String) :
    (p ∈ (cacheStep md5 cache (some fd)).map Prod.fst) ↔
      p = fd.file_path ∨ p ∈ cache.map Prod.fst := by
  simp only [cacheStep]
  rw [mem_keys_upsert]

/-- The keys after folding the cache step over a module's entries. -/
theorem cacheFold_keys (md5 : String → String) (entries : List (Option FileData)) :
    ∀ (cache : List (String × CacheEntry)) (p : String),
      (p ∈ (entries.foldl (cacheStep md5) cache).map Prod.fst) ↔
        p ∈ entries.filterMap (fun e => e.map FileData.file_path) ∨
          p ∈ cache.map Prod.fst := by
  induction entries with
  | nil => intro cache p; simp
  | cons e rest ih =>
      intro cache p
      cases e with
      | none => simpa using ih cache p
      | some fd =>
          rw [List.foldl_cons, ih, cacheStep_keys_some]
          simp only [List.filterMap_cons, Option.map_some', List.mem_cons]
          tauto

/-- process_all_directories always returns the empty map: each
per-directory result is the empty dict, and updating with an empty
dict is the identity. -/
theorem process_all_directories_eq_nil (t : DirTree) :
    process_all_directories t = [] := by
  unfold process_all_directories
  generalize walkDirs t = ds
  induction ds with
  | nil => rfl
  | cons d ds ih =>
      rw [List.foldl_cons]
      exact ih

/-! ## Claim C3 -/

/-- C3: process_all_directories returns an empty map for every root
tree, because process_directory_concurrently creates its result empty
and never stores worker output; consequently every downstream consumer
of codebase_data in main (the skipped-file count, the dependency
graph, the lint statistics, the codebase statistics, and the persisted
cache) computes on the empty map and yields empty or zero results. -/
theorem claim_C3_codebase_data_always_empty :
    ∀ (t : DirTree) (md5 : String → String),
      process_all_directories t = [] ∧
      count_skipped_files (process_all_directories t) = 0 ∧
      (build_dependency_graph (process_all_directories t)).nodes = [] ∧
      (build_dependency_graph (process_all_directories t)).edges = [] ∧
      analyze_lint_results (process_all_directories t) = some [] ∧
      calculate_codebase_stats (process_all_directories t) = emptyStats ∧
      cache_analysis_results md5 (process_all_directories t) = [] := by
  intro t md5
  rw [process_all_directories_eq_nil]
  exact ⟨rfl, rfl, rfl, rfl, rfl, rfl, rfl⟩

/-! ## Claim C4 -/

/-- The keys after folding the cache construction over all modules. -/
theorem cacheOuter_keys (md5 : String → String) (cdb : CodebaseData) :
    ∀ (cache : List (String × CacheEntry)) (p : String),
      (p ∈ (cdb.foldl (fun c m => m.2.foldl (cacheStep md5) c) cache).map Prod.fst) ↔
        p ∈ runPaths cdb ∨ p ∈ cache.map Prod.fst := by
  induction cdb with
  | nil => intro cache p; simp [runPaths]
  | cons m rest ih =>
      intro cache p
      rw [List.foldl_cons, ih, cacheFold_keys]
      have hr : runPaths (m :: rest) =
          m.2.filterMap (fun e => e.map FileData.file_path) ++ runPaths rest := by
        simp [runPaths]
      rw [hr]
      simp only [List.mem_append]
      tauto

/-- C4 (amended): the persisted cache is rebuilt solely from this
run's records and written wholesale: a path is a key of the written
cache exactly when some record of this run's codebase_data carries it.
Prior entries are not merged in and no pruning of deleted files
occurs, because the prior cache is not an input of
cache_analysis_results at all. -/
theorem claim_C4_cache_written_wholesale :
    ∀ (md5 : String → String) (cdb : CodebaseData) (p : String),
      (lookupAssoc (cache_analysis_results md5 cdb) p).isSome ↔ p ∈ runPaths cdb := by
  intro md5 cdb p
  rw [lookupAssoc_isSome_iff]
  unfold cache_analysis_results
  rw [cacheOuter_keys]
  simp

/-- Digest stand-in for the md5 hex digest in the concrete scenario;
the cache-key property under scrutiny does not depend on digest
values. -/
def c4md5 : String → String := fun s => "h:" ++ s

/-- The one record this run produced. -/
def c4fresh : FileData :=
  { file_path := "fresh.py", language := some "python", content := some "pass",
    analysis := [], loc := some 1, size := 4, module_path := "m",
    documentation := none }

/-- This run's codebase_data. -/
def c4run : CodebaseData := [("m", [some c4fresh])]

/-- The prior cache on disk, holding an entry for old.py, a file that
was not touched this run (and, in the scenario, still exists on
disk). -/
def c4prior : List (String × CacheEntry) :=
  [("old.py", ⟨some "h:x", [], 0, 0⟩)]

/-- C4 counterexample: the prior cache holds an entry for old.py, a
file untouched by this run, yet the cache written at run end has no
key old.py: the prior entry is dropped, contradicting the claimed
read-modify-write merge. -/
theorem claim_C4_counterexample :
    (lookupAssoc c4prior "old.py").isSome = true ∧
    lookupAssoc (cache_analysis_results c4md5 c4run) "old.py" = none := by
  exact ⟨rfl, rfl⟩

/-! ## Claim C2 -/

/-- The per-file context of a Python source file whose MIME type is
detected as text/plain (what libmagic reports for a .py file). -/
def c2ctx : FileCtx :=
  { pathExists := true, mime := some "text/plain", language := some "python",
    entities := [], handlerResult := fun _ => none }

/-- C2 (code-bug evidence): the registry maps the extension key .py to
the Python analyzer, but dispatch looks the detected MIME type up in
that extension-keyed registry, so a Python file detected as text/plain
(or any MIME type) falls through to the default handler instead of the
registered Python analyzer. -/
theorem claim_C2_dispatch_key_mismatch :
    lookupAssoc FILE_TYPE_HANDLERS ".py" = some Handler.python ∧
    getHandler (some "text/plain") = Handler.defaultHandler ∧
    getHandler (some "text/x-python") = Handler.defaultHandler ∧
    (process_file c2ctx "test.py" "m" "out").dispatched = some Handler.defaultHandler := by
  exact ⟨rfl, rfl, rfl, rfl⟩

/-! ## Claim C10 -/

/-- C10: a file is classified non-binary exactly when the detected
MIME type is one of the six text types; an undetermined type (none)
or any other type counts as binary, and process_file returns with no
dispatch and no persisted record for a binary file. -/
theorem claim_C10_binary_iff_not_text_mime :
    (∀ d : Option String, is_binary_file d = false ↔ ∃ t, d = some t ∧ t ∈ text_types) ∧
    (∀ (ctx : FileCtx) (f m o : String), is_binary_file ctx.mime = true →
        process_file ctx f m o = ⟨none, none⟩) := by
  constructor
  · intro d
    cases d with
    | none => simp [is_binary_file, is_text_file]
    | some t => simp [is_binary_file, is_text_file, List.contains, List.elem_iff]
  · intro ctx f m o h
    cases hp : ctx.pathExists <;> simp [process_file, hp, h]

/-- A context whose MIME type is outside the six text types. -/
def c10ctx : FileCtx :=
  { pathExists := true, mime := some "application/pdf", language := none,
    entities := [], handlerResult := fun _ => none }

/-- C10 witness: text/css is accepted as text, and a file detected as
application/pdf is skipped by process_file without dispatch or save. -/
theorem claim_C10_witness :
    (is_binary_file (some "text/css") = false ↔
      ∃ t, (some "text/css" : Option String) = some t ∧ t ∈ text_types) ∧
    process_file c10ctx "a.pdf" "m" "out" = ⟨none, none⟩ :=
  ⟨claim_C10_binary_iff_not_text_mime.1 (some "text/css"),
   claim_C10_binary_iff_not_text_mime.2 c10ctx "a.pdf" "m" "out" rfl⟩

/-! ## Claim C7 -/

/-- C7: resolving specifier b from importer moduleA slash a searches
the importer's own module first; whenever that module holds records
for moduleA slash a and moduleA slash b (in that order), the result is
moduleA slash b, whatever other modules (such as one holding moduleB
slash b) the codebase map contains and in whatever position. -/
theorem claim_C7_same_module_preference :
    ∀ (fa fb : FileData) (rest : CodebaseData),
      fa.file_path = "moduleA/a" → fb.file_path = "moduleA/b" →
      resolve_import "b" "moduleA/a" (("moduleA", [some fa, some fb]) :: rest) =
        .ok (some "moduleA/b") := by
  intro fa fb rest ha hb
  have h1 : (possible_paths "b" (suffixOf "moduleA/a")).any
      (fun q => strEndsWith "moduleA/a" q) = false := by decide
  have h2 : (possible_paths "b" (suffixOf "moduleA/a")).any
      (fun q => strEndsWith "moduleA/b" q) = true := by decide
  have hparent : parentDir "moduleA/a" = "moduleA" := by decide
  have hlm : lookupModule (("moduleA", [some fa, some fb]) :: rest) (parentDir "moduleA/a")
      = [some fa, some fb] := by
    rw [hparent]; rfl
  have hfm : findMatchIn [some fa, some fb] (possible_paths "b" (suffixOf "moduleA/a"))
      = .ok (some "moduleA/b") := by
    unfold findMatchIn
    rw [ha, h1]
    simp only [Bool.false_eq_true, if_false]
    unfold findMatchIn
    rw [hb, h2]
    simp
  simp only [resolve_import]
  rw [hlm, hfm]

/-- The importer record of the concrete C7 scenario. -/
def c7fa : FileData :=
  { file_path := "moduleA/a", language := some "python", content := some "import b",
    analysis := [], loc := some 1, size := 8, module_path := "moduleA",
    documentation := none }

/-- The same-module candidate. -/
def c7fb : FileData := { c7fa with file_path := "moduleA/b" }

/-- The cross-module candidate living in moduleB. -/
def c7other : FileData :=
  { c7fa with file_path := "moduleB/b", module_path := "moduleB" }

/-- C7 witness: with both candidates present, the same-module one
wins. -/
theorem claim_C7_witness :
    resolve_import "b" "moduleA/a"
      (("moduleA", [some c7fa, some c7fb]) :: [("moduleB", [some c7other])]) =
      .ok (some "moduleA/b") :=
  claim_C7_same_module_preference c7fa c7fb [("moduleB", [some c7other])] rfl rfl

/-! ## Claim C1 -/

/-- Digest stand-in for the md5 hex digest in the concrete warm-cache
scenario. -/
def c1md5 : String → String := fun s => "md5:" ++ s

/-- The record the dispatched handler returns for the unchanged
file. -/
def c1fd : FileData :=
  { file_path := "m/f.py", language := some "python", content := some "print(1)",
    analysis := [("functions", .arr [])], loc := some 1, size := 8,
    module_path := "m", documentation := none }

/-- A warm cache holding an entry for the file whose stored hash
matches the file's current content hash. -/
def c1cache : List (String × CacheEntry) :=
  [("m/f.py", ⟨some (c1md5 "print(1)"), [("cached", JVal.null)], 0, 0⟩)]

/-- The per-file context of the unchanged file on the re-run. -/
def c1ctx : FileCtx :=
  { pathExists := true, mime := some "text/plain", language := some "python",
    entities := [], handlerResult := fun _ => some c1fd }

/-- C1 counterexample: the warm cache holds a matching-hash entry for
the file, yet process_file still dispatches a handler (and persists
that handler's output), because no step of process_file consults the
cache; the claimed cache-lookup-before-dispatch does not happen. -/
theorem claim_C1_counterexample :
    (lookupAssoc c1cache "m/f.py").map CacheEntry.hash = some (some (c1md5 "print(1)")) ∧
    (process_file c1ctx "m/f.py" "m" "out").dispatched = some Handler.defaultHandler ∧
    ((process_file c1ctx "m/f.py" "m" "out").saved).isSome = true :=
  ⟨rfl, rfl, rfl⟩

/-- C1 (amended): analyzer dispatch is unconditional — for every
existing non-binary file a handler is invoked, with no cache
consultation before (or during) dispatch; the only reuse of prior
results happens in main's post-traversal loop, which, on a stored-hash
match against the record's content hash, overwrites the record's
analysis with the cached analysis after the analyzers have already
run. -/
theorem claim_C1_dispatch_unconditional :
    (∀ (ctx : FileCtx) (f m o : String),
       ctx.pathExists = true → is_binary_file ctx.mime = false →
       (process_file ctx f m o).dispatched = some (getHandler ctx.mime)) ∧
    (∀ (md5 : String → String) (cache : List (String × CacheEntry))
       (dl : List (String × String)) (mp : String) (fd : FileData)
       (c : String) (entry : CacheEntry),
       fd.content = some c → lookupAssoc cache fd.file_path = some entry →
       entry.hash = some (md5 c) →
       (update_file_data md5 cache dl mp fd).analysis = entry.analysis) := by
  constructor
  · intro ctx f m o hp hb
    cases hh : ctx.handlerResult (getHandler ctx.mime) with
    | none => simp [process_file, hp, hb, hh]
    | some fd =>
        cases hc : fd.content with
        | none => simp [process_file, hp, hb, hh, hc]
        | some c =>
            by_cases hm : m = ""
            · simp [process_file, hp, hb, hh, hc, hm]
            · simp [process_file, hp, hb, hh, hc, hm]
  · intro md5 cache dl mp fd c entry hc hl hh
    simp only [update_file_data, hc, hl, hh, beq_self_eq_true, if_true]
    cases hd : lookupAssoc dl fd.file_path <;> simp [hd]

/-- C1 witness: in the concrete warm-cache scenario the default
handler is dispatched anyway, and main's post-pass replaces the
record's analysis with the cached one. -/
theorem claim_C1_witness :
    (process_file c1ctx "m/f.py" "m" "out").dispatched = some (getHandler c1ctx.mime) ∧
    (update_file_data c1md5 c1cache [] "m" c1fd).analysis = [("cached", JVal.null)] := by
  constructor
  · exact claim_C1_dispatch_unconditional.1 c1ctx "m/f.py" "m" "out" rfl rfl
  · exact claim_C1_dispatch_unconditional.2 c1md5 c1cache [] "m" c1fd "print(1)"
      ⟨some (c1md5 "print(1)"), [("cached", JVal.null)], 0, 0⟩ rfl rfl rfl

/-! ## Claim C5 -/

/-- A root directory with one subdirectory holding the single input
file. -/
def c5tree : DirTree := .node "r" [] [.node "r/sub" ["r/sub/f.py"] []]

/-- The handler record for the single file. -/
def c5fd : FileData :=
  { file_path := "r/sub/f.py", language := some "python", content := some "x = 1",
    analysis := [], loc := some 1, size := 5, module_path := "sub",
    documentation := none }

/-- The task context making every task of the scenario succeed. -/
def c5env : TaskEnv :=
  { fileEnv := fun _ =>
      { pathExists := true, mime := some "text/plain", language := some "python",
        entities := [], handlerResult := fun _ => some c5fd },
    modulePathOf := fun _ => "sub",
    output_dir := "out" }

/-- C5 counterexample: the tree holds exactly one distinct file (N equals 1),
every task succeeds, yet two records with the same file_path are
persisted: os.walk visits both the root and the subdirectory, and
rglob from each of them finds the nested file again. -/
theorem claim_C5_counterexample :
    rglobFiles c5tree = ["r/sub/f.py"] ∧
    persistedPaths c5env c5tree = ["r/sub/f.py", "r/sub/f.py"] :=
  ⟨rfl, rfl⟩

/-- The persisted paths of a task list are exactly the scheduled files
when every task saves a record carrying its own path. -/
theorem persisted_map_of_saved (env : TaskEnv) :
    ∀ (fs : List String),
      (∀ f ∈ fs, ∃ l, (runTask env f).saved = some l ∧ l.record.file_path = f) →
      (fs.filterMap (fun f => (runTask env f).saved)).map
        (fun l => l.record.file_path) = fs := by
  intro fs
  induction fs with
  | nil => intro _; rfl
  | cons f rest ih =>
      intro h
      obtain ⟨l, hl, hp⟩ := h f (List.mem_cons_self f rest)
      have hrest := ih (fun g hg => h g (List.mem_cons_of_mem f hg))
      simp [List.filterMap_cons, hl, hp, hrest]

/-- C5 (amended): the exactly-N guarantee holds only for a flat run —
when all N files sit directly in the root directory (no
subdirectories) and every task persists a record carrying its own
path, the persisted records' paths are exactly the N input files, so
there are no duplicates and no losses; with nested directories a file
is scheduled once per directory on the path from the root to its
parent, producing duplicate records. -/
theorem claim_C5_flat_run_exact :
    ∀ (env : TaskEnv) (root : String) (files : List String),
      (∀ f ∈ files, ∃ l, (runTask env f).saved = some l ∧ l.record.file_path = f) →
      persistedPaths env (.node root files []) = files := by
  intro env root files h
  have hs : scheduled (.node root files []) = files := by
    simp [scheduled, walkDirs, walkDirsList, rglobFiles, rglobFilesList]
  unfold persistedPaths persistedLines
  rw [hs]
  exact persisted_map_of_saved env files h

/-- The flat-run record of the C5 witness scenario. -/
def c5wfd : FileData := { c5fd with file_path := "r/a.py" }

/-- The flat-run task context of the C5 witness scenario. -/
def c5wenv : TaskEnv :=
  { fileEnv := fun _ =>
      { pathExists := true, mime := some "text/plain", language := some "python",
        entities := [], handlerResult := fun _ => some c5wfd },
    modulePathOf := fun _ => ".",
    output_dir := "out" }

/-- C5 witness: one file directly in the root yields exactly that one
persisted record. -/
theorem claim_C5_witness :
    persistedPaths c5wenv (.node "r" ["r/a.py"] []) = ["r/a.py"] :=
  claim_C5_flat_run_exact c5wenv "r" ["r/a.py"] (by
    intro f hf
    simp only [List.mem_singleton] at hf
    subst hf
    exact ⟨_, rfl, rfl⟩)

/-! ## Claim C6 -/

/-- A record that is fully present and correctly typed per the schema,
parameterised by its metadata size. -/
def c6Record (n : Int) : JVal :=
  .obj [("file_path", .str "example.py"),
        ("language", .str "python"),
        ("content", .str "pass"),
        ("analysis", .obj []),
        ("metadata", .obj [("size", .num n)])]

/-- C6 counterexample: a record whose metadata size is the negative
integer -1 passes validate_json, because the schema constrains size
only to the type integer and has no minimum keyword; validate does not
fail on a negative size as claimed. -/
theorem claim_C6_counterexample :
    ((-1 : Int) < 0) ∧ validate_json (c6Record (-1)) = true :=
  ⟨by decide, rfl⟩

/-- C6 (amended): validate_json does enforce presence and typing — any
record it accepts is an object with a string file_path, a string
language, and a metadata object carrying an integer size — but it
performs no sign check on size: c6Record n passes validation for every
integer n, negative ones included, so the non-negative-size invariant
is not enforced by validation. -/
theorem claim_C6_validate_checks_types_not_sign :
    (∀ data : JVal, validate_json data = true →
       ∃ fs, data = .obj fs ∧
         (∃ s, getField fs "file_path" = some (.str s)) ∧
         (∃ s, getField fs "language" = some (.str s)) ∧
         (∃ mfs n, getField fs "metadata" = some (.obj mfs) ∧
            getField mfs "size" = some (.num n))) ∧
    (∀ n : Int, validate_json (c6Record n) = true) := by
  constructor
  · intro data h
    cases data with
    | obj fs =>
        refine ⟨fs, rfl, ?_, ?_, ?_⟩
        · simp only [validate_json, Bool.and_eq_true] at h
          obtain ⟨⟨⟨⟨⟨⟨⟨⟨⟨h₁, h₂⟩, h₃⟩, h₄⟩, h₅⟩, h₆⟩, h₇⟩, h₈⟩, h₉⟩, h₁₀⟩ := h
          cases hf : getField fs "file_path" with
          | none => rw [hf] at h₁; simp at h₁
          | some v =>
              simp only [propOk, hf] at h₆
              cases v with
              | str s => exact ⟨s, rfl⟩
              | null => simp [isType] at h₆
              | bool b => simp [isType] at h₆
              | num n => simp [isType] at h₆
              | rat q => simp [isType] at h₆
              | arr l => simp [isType] at h₆
              | obj l => simp [isType] at h₆
        · simp only [validate_json, Bool.and_eq_true] at h
          obtain ⟨⟨⟨⟨⟨⟨⟨⟨⟨h₁, h₂⟩, h₃⟩, h₄⟩, h₅⟩, h₆⟩, h₇⟩, h₈⟩, h₉⟩, h₁₀⟩ := h
          cases hf : getField fs "language" with
          | none => rw [hf] at h₂; simp at h₂
          | some v =>
              simp only [propOk, hf] at h₇
              cases v with
              | str s => exact ⟨s, rfl⟩
              | null => simp [isType] at h₇
              | bool b => simp [isType] at h₇
              | num n => simp [isType] at h₇
              | rat q => simp [isType] at h₇
              | arr l => simp [isType] at h₇
              | obj l => simp [isType] at h₇
        · simp only [validate_json, Bool.and_eq_true] at h
          obtain ⟨⟨⟨⟨⟨⟨⟨⟨⟨h₁, h₂⟩, h₃⟩, h₄⟩, h₅⟩, h₆⟩, h₇⟩, h₈⟩, h₉⟩, h₁₀⟩ := h
          cases hf : getField fs "metadata" with
          | none => rw [hf] at h₅; simp at h₅
          | some v =>
              simp only [propOk, hf] at h₁₀
              cases v with
              | obj mfs =>
                  simp only [checkMetadataVal, Bool.and_eq_true] at h₁₀
                  obtain ⟨⟨⟨m₁, m₂⟩, m₃⟩, m₄⟩ := h₁₀
                  cases hs : getField mfs "size" with
                  | none => rw [hs] at m₁; simp at m₁
                  | some w =>
                      simp only [propOk, hs] at m₃
                      cases w with
                      | num n => exact ⟨mfs, n, rfl, hs⟩
                      | null => simp [isType] at m₃
                      | bool b => simp [isType] at m₃
                      | str s => simp [isType] at m₃
                      | rat q => simp [isType] at m₃
                      | arr l => simp [isType] at m₃
                      | obj l => simp [isType] at m₃
              | null => simp [checkMetadataVal] at h₁₀
              | bool b => simp [checkMetadataVal] at h₁₀
              | num n => simp [checkMetadataVal] at h₁₀
              | rat q => simp [checkMetadataVal] at h₁₀
              | str s => simp [checkMetadataVal] at h₁₀
              | arr l => simp [checkMetadataVal] at h₁₀
    | null => simp [validate_json] at h
    | bool b => simp [validate_json] at h
    | num n => simp [validate_json] at h
    | rat q => simp [validate_json] at h
    | str s => simp [validate_json] at h
    | arr l => simp [validate_json] at h
  · intro n
    rfl

/-- C6 witness: the amended theorem applied at the concrete record
with size -7. -/
theorem claim_C6_witness :
    validate_json (c6Record (-7)) = true ∧
    (∃ fs, c6Record (-7) = .obj fs ∧
      (∃ s, getField fs "file_path" = some (.str s)) ∧
      (∃ s, getField fs "language" = some (.str s)) ∧
      (∃ mfs n, getField fs "metadata" = some (.obj mfs) ∧
         getField mfs "size" = some (.num n))) :=
  ⟨claim_C6_validate_checks_types_not_sign.2 (-7),
   claim_C6_validate_checks_types_not_sign.1 (c6Record (-7))
     (claim_C6_validate_checks_types_not_sign.2 (-7))⟩

/-! ## Claim C8 -/

/-- A task context in which every task fails up front. -/
def c8taskEnv : TaskEnv :=
  { fileEnv := fun _ =>
      { pathExists := false, mime := none, language := none, entities := [],
        handlerResult := fun _ => none },
    modulePathOf := fun _ => ".",
    output_dir := "out" }

/-- Digest stand-in for the C8 scenarios. -/
def c8md5 : String → String := fun s => "h:" ++ s

/-- A run whose root path is missing (os.walk yields nothing) while
the output directory is creatable. -/
def c8env : MainEnv :=
  { makedirsOk := true, tree := none, taskEnv := c8taskEnv, md5 := c8md5,
    prior_cache := [], doc_links := [] }

/-- C8 counterexample: the root path is missing, which the claim lists
as a top-level setup failure demanding a non-zero exit; the run exits
with status zero because os.walk over a missing root silently yields
nothing and every later phase is caught. -/
theorem claim_C8_counterexample :
    c8env.tree = none ∧ c8env.makedirsOk = true ∧ (mainRun c8env).exitCode = 0 :=
  ⟨rfl, rfl, rfl⟩

/-- C8 (amended): per-file errors are caught inside the tasks and
never change the exit status — the exit code depends only on whether
the output directory could be created, non-zero exactly when it could
not, in which case the run aborts before any task starts; a missing
root path yields a normal zero exit over an empty walk, and the
skipped-file count derived from codebase_data is always zero. -/
theorem claim_C8_exit_nonzero_iff_makedirs_fails :
    ∀ env : MainEnv,
      ((mainRun env).exitCode ≠ 0 ↔ env.makedirsOk = false) ∧
      (env.makedirsOk = false →
        (mainRun env).tasksRun = [] ∧ (mainRun env).writtenCache = none) ∧
      count_skipped_files (mainRun env).codebase = 0 ∧
      (∀ env' : MainEnv, env'.makedirsOk = env.makedirsOk →
         (mainRun env').exitCode = (mainRun env).exitCode) := by
  intro env
  cases hm : env.makedirsOk with
  | false =>
      refine ⟨?_, ?_, ?_, ?_⟩
      · simp [mainRun, hm]
      · intro _
        exact ⟨by simp [mainRun, hm], by simp [mainRun, hm]⟩
      · simp [mainRun, hm, count_skipped_files]
      · intro env' h'
        simp [mainRun, h', hm]
  | true =>
      refine ⟨?_, ?_, ?_, ?_⟩
      · simp [mainRun, hm]
      · intro hc
        cases hc
      · cases ht : env.tree with
        | none => simp [mainRun, hm, ht, count_skipped_files]
        | some t =>
            simp [mainRun, hm, ht, process_all_directories_eq_nil,
              count_skipped_files]
      · intro env' h'
        simp [mainRun, h', hm]

/-- The run with an uncreatable output directory. -/
def c8envFail : MainEnv := { c8env with makedirsOk := false }

/-- C8 witness: the amended theorem at the uncreatable-output-directory
run, with the setup-failure hypothesis discharged. -/
theorem claim_C8_witness :
    ((mainRun c8envFail).exitCode ≠ 0 ↔ c8envFail.makedirsOk = false) ∧
    ((mainRun c8envFail).tasksRun = [] ∧ (mainRun c8envFail).writtenCache = none) :=
  ⟨(claim_C8_exit_nonzero_iff_makedirs_fails c8envFail).1,
   (claim_C8_exit_nonzero_iff_makedirs_fails c8envFail).2.1 rfl⟩

/-! ## Claim C9 -/

/-- C9: whenever the lint_results value is None (linter exited
non-zero) or a parsed JSON array (linter output), the record built by
any of the four linted handlers violates the schema's declared object
type for lint_results, validate_json returns false, and the handler
returns None instead of the record. -/
theorem claim_C9_lint_results_fails_validation :
    ∀ (lint : JVal), (lint = JVal.null ∨ ∃ l, lint = JVal.arr l) →
    ∀ (fp lang content mp : String)
      (classes functions imports comments entities rules : List JVal)
      (docstrings properties : List (String × JVal)) (complexity loc size : Int),
      validate_json (pythonRecord fp lang content classes functions imports
        comments entities docstrings complexity lint loc size mp) = false ∧
      process_python_file fp lang content classes functions imports
        comments entities docstrings complexity lint loc size mp = none ∧
      validate_json (cssRecord fp lang content rules entities properties
        lint loc size mp) = false ∧
      process_css_file fp lang content rules entities properties
        lint loc size mp = none ∧
      validate_json (javascriptRecord fp lang content functions imports
        comments entities lint loc size mp) = false ∧
      process_javascript_file fp lang content functions imports
        comments entities lint loc size mp = none ∧
      validate_json (typescriptRecord fp lang content functions imports
        comments entities complexity docstrings lint loc size mp) = false ∧
      process_typescript_file fp lang content functions imports
        comments entities complexity docstrings lint loc size mp = none := by
  intro lint h fp lang content mp classes functions imports comments entities
    rules docstrings properties complexity loc size
  rcases h with h | ⟨l, h⟩ <;> subst h <;>
    exact ⟨rfl, rfl, rfl, rfl, rfl, rfl, rfl, rfl⟩

/-- C9 witness: the theorem at concrete ingredient values with a None
linter result — all four handlers return None. -/
theorem claim_C9_witness :
    process_python_file "a.py" "python" "pass" [] [] [] [] [] [] 1 JVal.null 1 4 "m"
      = none ∧
    process_css_file "a.css" "css" "body" [] [] [] JVal.null 1 4 "m" = none ∧
    process_javascript_file "a.js" "javascript" "x" [] [] [] [] JVal.null 1 1 "m"
      = none ∧
    process_typescript_file "a.ts" "typescript" "x" [] [] [] [] 1 [] JVal.null 1 1 "m"
      = none := by
  have h := claim_C9_lint_results_fails_validation JVal.null (Or.inl rfl)
    "a.py" "python" "pass" "m" [] [] [] [] [] [] [] [] 1 1 4
  have h2 := claim_C9_lint_results_fails_validation JVal.null (Or.inl rfl)
    "a.css" "css" "body" "m" [] [] [] [] [] [] [] [] 1 1 4
  have h3 := claim_C9_lint_results_fails_validation JVal.null (Or.inl rfl)
    "a.js" "javascript" "x" "m" [] [] [] [] [] [] [] [] 1 1 1
  have h4 := claim_C9_lint_results_fails_validation JVal.null (Or.inl rfl)
    "a.ts" "typescript" "x" "m" [] [] [] [] [] [] [] [] 1 1 1
  exact ⟨h.2.1, h2.2.2.2.1, h3.2.2.2.2.2.1, h4.2.2.2.2.2.2.2⟩

end CodebaseAnalysis
